import Mathlib

/-!
# Verification of the ePDF-Analyzer document-structure inference core

Shallow embedding of the heuristic document-structure engine of the
ePDF-Analyzer repository, together with theorems settling the claims about
it.  The embedding follows the Python source:

* `app/services/custom_extractor.py`  — `CustomExtractor._convert_type`
  (the type coercer) and `CustomExtractor._clean_markdown_json`;
* `app/services/table_extractor.py`   — `TableExtractor._detect_header`
  and `TableExtractor.table_to_dict`;
* `app/services/document_templates.py` — `DocumentTemplateManager`
  (`_find_totals_table`, `_find_line_items_table`, `extract_data` and its
  helpers, the built-in template registry);
* `app/services/pdf_reader.py`        — `PDFReader.extract_sender_recipient_blocks`.

Python strings are modelled as Lean `String`s, with all operations
implemented by structural recursion over `String.data` so that every
definition evaluates by kernel reduction.  Python floats are modelled as
exact rationals (`ℚ`); the float literals `0.5`, `0.7`, `0.35`, `0.6`
appearing in the source are modelled by the corresponding rationals (the
double-rounding error of these literals is several orders of magnitude
below every quantity they are compared against in the inputs considered
here, so the comparisons agree).  External collaborators (the regex
engine applied to template patterns, difflib's `SequenceMatcher`, the
generative-model call, `json.loads`) are taken as explicit function
parameters, exactly as the specification designates them external; every
theorem about code that consults them quantifies over the parameter.
-/

namespace EPDF

/-! ## Python string primitives (over `List Char`) -/

/-- Python `str.strip()` default whitespace test. -/
def isPySpace (c : Char) : Bool := c.isWhitespace

/-- `str.strip()` on a character list. -/
def pyStripL (l : List Char) : List Char :=
  ((l.dropWhile isPySpace).reverse.dropWhile isPySpace).reverse

/-- `str.strip()`. -/
def pyStrip (s : String) : String := String.mk (pyStripL s.data)

/-- One character of `str.lower()`.  ASCII letters and the Turkish letters
occurring in the source are mapped as CPython maps them; in particular
`İ` (U+0130) lowers to the two-character sequence `i` + U+0307. -/
def pyLowerChar (c : Char) : List Char :=
  if 'A' ≤ c ∧ c ≤ 'Z' then [Char.ofNat (c.toNat + 32)]
  else if c = 'İ' then ['i', Char.ofNat 0x307]
  else if c = 'Ş' then ['ş']
  else if c = 'Ö' then ['ö']
  else if c = 'Ü' then ['ü']
  else if c = 'Ç' then ['ç']
  else if c = 'Ğ' then ['ğ']
  else [c]

/-- `str.lower()`. -/
def pyLower (s : String) : String := String.mk ((s.data.map pyLowerChar).flatten)

/-- One character of `str.upper()` (ASCII plus the Turkish letters used in
the source; CPython maps `ı` to `I` and `i` to `I`). -/
def pyUpperChar (c : Char) : Char :=
  if 'a' ≤ c ∧ c ≤ 'z' then Char.ofNat (c.toNat - 32)
  else if c = 'ı' then 'I'
  else if c = 'ş' then 'Ş'
  else if c = 'ö' then 'Ö'
  else if c = 'ü' then 'Ü'
  else if c = 'ç' then 'Ç'
  else if c = 'ğ' then 'Ğ'
  else c

/-- `str.upper()` (character-to-character on the alphabet used here). -/
def pyUpper (s : String) : String := String.mk (s.data.map pyUpperChar)

/-- Whether `needle` occurs as a contiguous substring of `hay`
(Python `needle in hay`). -/
def containsSubL (needle : List Char) : List Char → Bool
  | [] => needle.isEmpty
  | c :: rest => needle.isPrefixOf (c :: rest) || containsSubL needle rest

/-- Python `needle in hay` on strings. -/
def containsSub (needle hay : String) : Bool := containsSubL needle.data hay.data

/-- Index of the first position where `needle` starts in `hay`. -/
def firstIdxOfSub (needle : List Char) : List Char → Option Nat
  | [] => if needle.isEmpty then Option.some 0 else Option.none
  | c :: rest =>
    if needle.isPrefixOf (c :: rest) then Option.some 0
    else (firstIdxOfSub needle rest).map (· + 1)

/-- Index of the last occurrence of character `c` (Python `str.rfind`,
restricted to the found case). -/
def lastIdxOf (c : Char) : List Char → Option Nat
  | [] => Option.none
  | a :: rest =>
    match lastIdxOf c rest with
    | Option.some i => Option.some (i + 1)
    | Option.none => if a = c then Option.some 0 else Option.none

/-- Python `str.replace(old, '')` for a single character `old`. -/
def removeAllChar (c : Char) (s : String) : String :=
  String.mk (s.data.filter (fun a => a ≠ c))

/-- Python `str.replace(old, new, 1)` for single characters: remove/replace
only the first occurrence.  With `new = []` this is `replace(old, '', 1)`. -/
def removeFirstChar (c : Char) : List Char → List Char
  | [] => []
  | a :: rest => if a = c then rest else a :: removeFirstChar c rest

/-- Python `str.replace(old, new)` for single characters. -/
def replaceAllChar (a b : Char) (s : String) : String :=
  String.mk (s.data.map (fun c => if c = a then b else c))

/-- Python `str.split(sep)` for a one-character separator (no collapsing;
`''.split(c) = ['']`). -/
def splitOnChar (c : Char) : List Char → List (List Char)
  | [] => [[]]
  | a :: rest =>
    let r := splitOnChar c rest
    if a = c then [] :: r
    else
      match r with
      | [] => [[a]]
      | h :: t => (a :: h) :: t

/-- Python `str.split(sep, 1)`: split at the first occurrence only;
`none` when the separator is absent. -/
def splitFirst (c : Char) : List Char → Option (List Char × List Char)
  | [] => Option.none
  | a :: rest =>
    if a = c then Option.some ([], rest)
    else (splitFirst c rest).map (fun p => (a :: p.1, p.2))

/-- Python `str.isdigit()` (ASCII digits suffice for the data here):
nonempty and all digits. -/
def isDigitStr (l : List Char) : Bool := ¬ l.isEmpty && l.all Char.isDigit

/-- Numeric value of a digit string. -/
def digitsVal (l : List Char) : ℕ :=
  l.foldl (fun acc c => acc * 10 + (c.toNat - 48)) 0

/-- `' '.join(xs)`. -/
def joinSpace (xs : List String) : String := String.intercalate " " xs

/-- First index satisfying a predicate. -/
def findIdxWhere (p : α → Bool) : List α → Option Nat
  | [] => Option.none
  | a :: rest =>
    if p a then Option.some 0 else (findIdxWhere p rest).map (· + 1)

/-- First element with maximal key, ties broken towards the front: the
value of Python `max(l, key=f)` and of `sorted(l, key=f, reverse=True)[0]`
(`list.sort` is stable). -/
def firstMaxBy [LinearOrder β] (f : α → β) : List α → Option α
  | [] => Option.none
  | x :: xs =>
    match firstMaxBy f xs with
    | Option.none => Option.some x
    | Option.some y => if f y ≤ f x then Option.some x else Option.some y

/-- Stable descending insertion by key: the earlier element wins ties.
`sortDescBy f` agrees with Python's stable `list.sort(key=f, reverse=True)`. -/
def insertDescBy [LinearOrder β] (f : α → β) (x : α) : List α → List α
  | [] => [x]
  | y :: ys => if f y ≤ f x then x :: y :: ys else y :: insertDescBy f x ys

/-- Stable descending sort by key (Python `list.sort(key=f, reverse=True)`). -/
def sortDescBy [LinearOrder β] (f : α → β) : List α → List α
  | [] => []
  | x :: xs => insertDescBy f x (sortDescBy f xs)

/-! ## Python values and the type coercer (`CustomExtractor._convert_type`)

`PyVal` models the dynamically-typed values flowing through
`_convert_type`: `none` is Python `None`, `num` a `float`, `int` an `int`,
and `dict` an insertion-ordered mapping. -/

inductive PyVal where
  | none
  | str (s : String)
  | num (q : ℚ)
  | int (n : ℤ)
  | bool (b : Bool)
  | list (xs : List PyVal)
  | dict (kvs : List (String × PyVal))

/-- Python truthiness of a value. -/
def pyTruthy : PyVal → Bool
  | .none => false
  | .str s => s ≠ ""
  | .num q => q ≠ 0
  | .int n => n ≠ 0
  | .bool b => b
  | .list xs => ¬ xs.isEmpty
  | .dict kvs => ¬ kvs.isEmpty

/-- Rendering of a float by `str()`.  CPython renders every float with a
`.` or an exponent; only membership of the rendering in the closed truthy
set below is ever observed, and no such rendering is in that set. -/
def pyFloatStr (q : ℚ) : String :=
  if q.den = 1 then toString q.num ++ ".0" else toString q.num ++ "/" ++ toString q.den

/-- `str(value)` for the values reaching `_convert_type`.  The renderings
of lists and dicts start with a bracket; as for floats, only membership in
the truthy set is observed. -/
def pyStrOf : PyVal → String
  | .none => "None"
  | .str s => s
  | .num q => pyFloatStr q
  | .int n => toString n
  | .bool true => "True"
  | .bool false => "False"
  | .list _ => "[...]"
  | .dict _ => "\x7b...\x7d"

/-- The syntactic pieces of a CPython `float()` literal: sign, value of
the integer-part digits, value and count of the fraction-part digits, and
the exponent.  Kept separate from the rational they denote so that
parsing is pure string/`ℕ` computation. -/
structure FloatParts where
  neg : Bool
  ip : ℕ
  fp : ℕ
  flen : ℕ
  ex : ℤ
deriving DecidableEq

/-- The rational denoted by parsed float pieces. -/
def ratOfParts (p : FloatParts) : ℚ :=
  (if p.neg then -1 else 1) * ((p.ip : ℚ) + (p.fp : ℚ) / (10 ^ p.flen : ℚ)) * (10 : ℚ) ^ p.ex

/-- Parse the strings CPython `float()` accepts on the inputs reachable in
this code: optional sign, digits with at most one `.`, optionally a
decimal exponent.  Any other character (including `,`) is a `ValueError`,
modelled as `none`.  (The `inf`/`nan` spellings contain letters that the
callers' cleaning has already removed, so they are not modelled.) -/
def parseFloatParts (s : String) : Option FloatParts :=
  let t := pyStripL s.data
  let (neg, body) :=
    match t with
    | '-' :: rest => (true, rest)
    | '+' :: rest => (false, rest)
    | l => (false, l)
  let (mant, ex) :=
    match splitFirst 'e' body with
    | Option.some p => (p.1, Option.some p.2)
    | Option.none =>
      match splitFirst 'E' body with
      | Option.some p => (p.1, Option.some p.2)
      | Option.none => (body, Option.none)
  if ¬ mant.all (fun c => c.isDigit ∨ c = '.') then Option.none
  else
    let mq : Option (ℕ × ℕ × ℕ) :=
      match splitOnChar '.' mant with
      | [ip] => if ip.isEmpty then Option.none else Option.some (digitsVal ip, 0, 0)
      | [ip, fp] =>
        if ip.isEmpty ∧ fp.isEmpty then Option.none
        else Option.some (digitsVal ip, digitsVal fp, fp.length)
      | _ => Option.none
    let eq : Option ℤ :=
      match ex with
      | Option.none => Option.some 0
      | Option.some e =>
        match e with
        | '-' :: d => if isDigitStr d then Option.some (-(digitsVal d : ℤ)) else Option.none
        | '+' :: d => if isDigitStr d then Option.some (digitsVal d : ℤ) else Option.none
        | d => if isDigitStr d then Option.some (digitsVal d : ℤ) else Option.none
    match mq, eq with
    | Option.some (i, f, fl), Option.some e => Option.some ⟨neg, i, f, fl, e⟩
    | _, _ => Option.none

/-- CPython `float()` as a partial map to `ℚ`. -/
def parsePyFloat (s : String) : Option ℚ := (parseFloatParts s).map ratOfParts

/-- The numeric cleaning of `_convert_type`, `field_type == "number"`:
`re.sub(r'\s*(TL|₺|EUR|USD|\$|€|Adet|adet|ADET)\s*', '', ...)` followed by
`re.sub(r'[^\d,.-]', '', ...)`.  The first substitution deletes only
whitespace, currency-token letters and currency signs — all characters the
second substitution deletes as well — so the composition equals the
character filter keeping `[0-9,.-]`. -/
def keepNumChars (s : String) : String :=
  String.mk (s.data.filter (fun c => c.isDigit ∨ c = ',' ∨ c = '.' ∨ c = '-'))

/-- The truthy strings of the `boolean` branch. -/
def truthyStrings : List String := ["true", "yes", "1", "evet", "var"]

/-- The separator auto-detection of the `number` branch
(`custom_extractor.py:432-445`): with both `,` and `.` present, the
rightmost one is the decimal separator; a lone `,` is decimal. -/
def resolveSeparators (cleaned : String) : String :=
  if cleaned.data.contains ',' ∧ cleaned.data.contains '.' then
    match lastIdxOf ',' cleaned.data, lastIdxOf '.' cleaned.data with
    | Option.some lc, Option.some ld =>
      -- last comma after last dot: Turkish `1.234,56`
      if ld < lc then replaceAllChar ',' '.' (removeAllChar '.' cleaned)
      -- otherwise English `1,234.56`
      else removeAllChar ',' cleaned
    | _, _ => cleaned  -- unreachable: both separators are present
  else if cleaned.data.contains ',' then replaceAllChar ',' '.' cleaned
  else cleaned

/-- The whole argument handed to `float()` by the `number` branch:
strip, keep `[0-9,.-]`, resolve separators. -/
def numberClean (s : String) : String :=
  resolveSeparators (keepNumChars (pyStrip s))

/-- `_convert_type`, `field_type == "number"`, on a string value
(`custom_extractor.py:409-450`). -/
def convertNumberStr (s : String) : PyVal :=
  if s = "" ∨ pyStrip s = "" then .none
  else if keepNumChars (pyStrip s) = "" then .none
  else
    match parseFloatParts (numberClean s) with
    | Option.some p => .num (ratOfParts p)
    | Option.none => .none

/-- `_convert_type`, `field_type == "number"`, on an arbitrary value.
The source first runs `if not value or value.strip() == '': return None`;
on a non-string the attribute access `value.strip()` raises
`AttributeError` for every truthy value, which the enclosing bare
`except:` turns into `return value`.  Hence falsy non-strings coerce to
`None` and truthy non-strings are returned unchanged (the
`isinstance(value, (int, float))` check on line 415 sits after the
`.strip()` call and is unreachable for non-strings). -/
def convertNumber : PyVal → PyVal
  | .str s => convertNumberStr s
  | .none => .none
  | v => if pyTruthy v then v else .none

/-- `_convert_type`, `field_type == "boolean"`:
`str(value).lower().strip() in ['true', 'yes', '1', 'evet', 'var']`. -/
def convertBoolean (v : PyVal) : PyVal :=
  .bool (truthyStrings.contains (pyStrip (pyLower (pyStrOf v))))

/-- `_clean_markdown_json` fenced-block capture: the first match of
`` r'```(?:json)?\s*\n?([\s\S]*?)\n?```' `` in `t`.  The lazy capture ends
at the first closing fence; a `\n` immediately before it is excluded from
the group, but the caller strips the group anyway, so taking the text up
to the first following fence is equivalent. -/
def fencedCapture (t : String) : Option String :=
  match firstIdxOfSub "```".data t.data with
  | Option.none => Option.none
  | Option.some i =>
    let rest := t.data.drop (i + 3)
    let rest := if "json".data.isPrefixOf rest then rest.drop 4 else rest
    let rest := rest.dropWhile isPySpace
    match firstIdxOfSub "```".data rest with
    | Option.none => Option.none
    | Option.some j => Option.some (String.mk (rest.take j))

/-- `CustomExtractor._clean_markdown_json` (`custom_extractor.py:573-593`). -/
def cleanMarkdownJson (s : String) : String :=
  if s = "" then s
  else
    let t := pyStrip s
    if containsSub "```" t then
      match fencedCapture t with
      | Option.some inner => pyStrip inner
      | Option.none => t
    else t

/-- The comma/newline splitting fallback of the `array` branch
(`custom_extractor.py:483-494`), applied to the raw string value. -/
def arraySplitFallback (s : String) : PyVal :=
  if ¬ ((pyStrip s).startsWith "[" ∨ (pyStrip s).startsWith "\x7b") then
    if s.data.contains ',' then
      .list ((((splitOnChar ',' s.data).map (fun l => pyStripL l)).filter
        (fun l => ¬ l.isEmpty)).map (fun l => .str (String.mk l)))
    else if s.data.contains '\n' then
      .list ((((splitOnChar '\n' s.data).map (fun l => pyStripL l)).filter
        (fun l => ¬ l.isEmpty)).map (fun l => .str (String.mk l)))
    else .list []
  else .list []

/-- `_convert_type`, `field_type == "array"`, with no field schema
(`field=None`, so the nested-property conversion is skipped).
`jsonParse` stands for `json.loads`; `Option.none` is a
`JSONDecodeError`.  For a non-string value, `_clean_markdown_json` raises
`AttributeError` on truthy input (swallowed by the outer `except:`,
returning the value) and `json.loads` raises `TypeError` on falsy input
(swallowed by `except Exception`, after which `value.strip()` raises and
the outer `except:` again returns the value). -/
def convertArray (jsonParse : String → Option PyVal) : PyVal → PyVal
  | .str s =>
    let cleaned := cleanMarkdownJson s
    match jsonParse cleaned with
    | Option.some (.list xs) => .list xs
    | Option.some _ => arraySplitFallback s
    | Option.none =>
      if (pyStrip cleaned).startsWith "[" ∨ (pyStrip cleaned).startsWith "\x7b" then .list []
      else arraySplitFallback s
  | v => v

/-- `_convert_type`, `field_type == "object"`, with no field schema.
On a string the cleaned value is parsed; a parsed `dict` is returned, and
every other outcome (decode error, or a parse to a non-dict) falls
through to `return {"value": value}` with the original string.  For a
non-string value, a truthy one is returned unchanged (`AttributeError` in
`_clean_markdown_json`, outer `except:`), while a falsy one reaches
`json.loads`, whose `TypeError` is caught by `except Exception` and falls
through to the `{"value": value}` fallback. -/
def convertObject (jsonParse : String → Option PyVal) : PyVal → PyVal
  | .str s =>
    let cleaned := cleanMarkdownJson s
    match jsonParse cleaned with
    | Option.some (.dict kvs) => .dict kvs
    | _ => .dict [("value", .str s)]
  | v => if pyTruthy v then v else .dict [("value", v)]

/-- `CustomExtractor._convert_type(value, field_type, field=None)`
(`custom_extractor.py:403-521`).  The claims under verification all
concern calls without a nested field schema, so `field` is fixed to
`None` and `_convert_nested_types` is never reached. -/
def convertType (jsonParse : String → Option PyVal) (v : PyVal) (t : String) : PyVal :=
  match v with
  | .none => .none
  | v =>
    if t = "number" then convertNumber v
    else if t = "boolean" then convertBoolean v
    else if t = "array" then convertArray jsonParse v
    else if t = "object" then convertObject jsonParse v
    else v

/-- A `json.loads` instantiation that always fails to decode; used to
evaluate the coercer at concrete inputs whose claims do not depend on the
parser. -/
def jsonParseNone : String → Option PyVal := fun _ => Option.none

/-! ## Header inference (`TableExtractor._detect_header`)

A raw-grid cell is `Option String`: `none` is a Python `None` cell
(pdfplumber produces those), `some s` a string cell. -/

/-- The four cell classes of `get_cell_type`. -/
inductive CellType where
  | empty
  | number
  | date
  | text
deriving DecidableEq

/-- Python truthiness of a cell. -/
def cellTruthy : Option String → Bool
  | Option.none => false
  | Option.some s => s ≠ ""

/-- `str(cell)`: `None` renders as `"None"`. -/
def cellStr : Option String → String
  | Option.none => "None"
  | Option.some s => s

/-- `get_cell_type` (`table_extractor.py:334-351`).  `cell_str` is the
stripped rendering with all `,` removed and the first `.`, `-`, `+` each
removed once.  (When `cell_str` is empty and the first `isdigit` test
fails, the source indexes `cell_str[0]` and raises `IndexError`; no cell
of the grids considered here reduces to the empty string, so that raising
path is not modelled.) -/
def getCellType (cell : Option String) : CellType :=
  if ¬ cellTruthy cell ∨ pyStrip (cellStr cell) = "" then .empty
  else
    let cs := removeFirstChar '+' (removeFirstChar '-' (removeFirstChar '.'
      ((pyStrip (cellStr cell)).data.filter (fun c => c ≠ ','))))
    if isDigitStr (removeFirstChar '.' cs)
        || (match cs with
            | c :: rest => ((c == '-') || (c == '+')) && isDigitStr (removeFirstChar '.' rest)
            | [] => false) then .number
    else if (cellStr cell).data.contains '/' ∨ (cellStr cell).data.contains '-' then
      let parts := splitOnChar '-'
        ((cellStr cell).data.map (fun c => if c = '/' then '-' else c))
      if 2 ≤ parts.length ∧ parts.any isDigitStr then .date else .text
    else .text

/-- Occurrence count of a cell class. -/
def countType (l : List CellType) (t : CellType) : ℕ := (l.filter (fun a => a = t)).length

/-- Distinct elements in order of first appearance. -/
def firstOccurrences : List CellType → List CellType
  | [] => []
  | x :: xs => x :: (firstOccurrences xs).filter (fun a => a ≠ x)

/-- `max(set(data_types), key=data_types.count)`.  CPython iterates the
set in an unspecified (hash-based) order, so only the case of a unique
maximal count is determined; we resolve ties towards the first
appearance.  Every grid considered in the theorems below has a unique
modal class in each column, where the two models agree. -/
def mostCommonType (l : List CellType) : Option CellType :=
  firstMaxBy (fun t => (countType l t : ℚ)) (firstOccurrences l)

/-- The key-value label stems of the 2-column special case
(`table_extractor.py:328-329`). -/
def kvIndicators : List String :=
  ["tarih", "fatura", "no", "tutar", "toplam", "ödeme", "kdv",
   "matrah", "vergi", "iskonto", "date", "total", "amount"]

/-- The header keyword list (`table_extractor.py:392-397`). -/
def realHeaderKeywords : List String :=
  ["sıra", "sira", "no", "ad", "soyad", "isim", "name",
   "miktar", "adet", "quantity", "birim", "fiyat", "price",
   "ürün", "product", "hizmet", "açıklama", "description",
   "kategori", "category", "kod", "code", "durum", "status"]

/-- The two `return False` sites of the 2-column key-value special case
(`table_extractor.py:304-331`): `true` means the source returns `False`
there.  `colon_count >= len(first_col_values) * 0.7` is modelled exactly
as `10·colon_count ≥ 7·len` (the double rounding of `0.7` is far below
the integer quantities compared). -/
def kvSpecialCaseNoHeader (table : List (List (Option String))) : Bool :=
  match table with
  | [] => false
  | first_row :: _ =>
    if first_row.length = 2 then
      let first_col_values := table.filterMap (fun row =>
        match row with
        | [] => Option.none
        | c :: _ => Option.some (pyStrip (cellStr c)))
      let colon_count :=
        (first_col_values.filter (fun v => v.data.getLast? = Option.some ':')).length
      if 7 * first_col_values.length ≤ 10 * colon_count then true
      else
        let all_rows_similar := table.all (fun row =>
          match row with
          | [a, b] => cellTruthy a && cellTruthy b
          | _ => true)
        if all_rows_similar ∧ 2 < table.length then
          match first_row with
          | c :: _ =>
            let first_col_first := pyLower (pyStrip (cellStr c))
            kvIndicators.any (fun ind => containsSub ind first_col_first)
          | [] => false
        else false
    else false

/-- `TableExtractor._detect_header` (`table_extractor.py:277-407`).
`type_mismatches > len(first_row) * 0.5` is modelled exactly as
`2·mismatches > len` (`0.5` is an exact double). -/
def detectHeader (table : List (List (Option String))) : Bool :=
  match table with
  | [] => false
  | first_row :: data_rows =>
    if table.length < 2 then false
    else if first_row.isEmpty then false
    else if kvSpecialCaseNoHeader table then false
    else
      let n := first_row.length
      let first_row_types := first_row.map getCellType
      let considered := (data_rows.take 5).filter (fun r => r.length = n)
      let columnTypesInData : ℕ → List CellType := fun i =>
        considered.filterMap (fun r => (r.get? i).map getCellType)
      let type_mismatches := ((List.range n).filter (fun i =>
        let dts := columnTypesInData i
        (!dts.isEmpty) &&
          match first_row_types.get? i, mostCommonType dts with
          | Option.some .text, Option.some .number => true
          | Option.some .text, Option.some .date => true
          | _, _ => false)).length
      if n < 2 * type_mismatches ∧ 3 ≤ n then true
      else if 3 ≤ n then
        let first_row_text := joinSpace (first_row.filterMap (fun c =>
          if cellTruthy c then Option.some (pyLower (cellStr c)) else Option.none))
        2 ≤ (realHeaderKeywords.filter (fun kw => containsSub kw first_row_text)).length
      else false

/-! ## Table normalization (`TableExtractor.table_to_dict`)

A pandas `DataFrame` is rectangular: named columns and string cell rows.
`attrs_has_header` is the optional `df.attrs['has_header']` annotation. -/

structure DataFrame where
  columns : List String
  data : List (List String)
  attrs_has_header : Option Bool

/-- The normalized table record returned by `table_to_dict`; a row is the
insertion-ordered dict produced by `df.to_dict('records')`. -/
structure TableRecord where
  has_header : Bool
  headers : Option (List String)
  rows : List (List (String × String))
  row_count : ℕ
  col_count : ℕ
  note : Option String
deriving DecidableEq

/-- The generic column names `Column_1 .. Column_N`. -/
def genericHeaders (n : ℕ) : List String :=
  (List.range n).map (fun i => "Column_" ++ toString (i + 1))

/-- `len(headers) != len(set(headers))`: some name repeats. -/
def hasDupList : List String → Bool
  | [] => false
  | x :: xs => xs.contains x || hasDupList xs

/-- `str(h).lower() in ['none', 'nan', ''] or pd.isna(h)` for a string
header (`pd.isna` is `False` on strings). -/
def badHeaderName (h : String) : Bool :=
  ["none", "nan", ""].contains (pyLower h)

/-- `TableExtractor.table_to_dict` (`table_extractor.py:183-254`).
`df.empty` holds when either axis has length 0. -/
def tableToDict (df : DataFrame) : TableRecord :=
  if df.data.isEmpty ∨ df.columns.isEmpty then
    ⟨false, Option.none, [], 0, 0, Option.some "Empty table"⟩
  else
    let original_headers := df.columns
    let has_duplicates := hasDupList original_headers
    let has_none_or_empty := original_headers.any badHeaderName
    let hbn :=
      if has_duplicates || has_none_or_empty then
        (genericHeaders original_headers.length, false,
         Option.some "Table had duplicate or invalid column names, generic names were assigned")
      else
        (original_headers, df.attrs_has_header.getD true, (Option.none : Option String))
    let headers := hbn.1
    let has_header := hbn.2.1
    let rows := df.data.map (fun r => headers.zip r)
    let note :=
      match hbn.2.2 with
      | Option.some n => Option.some n
      | Option.none =>
        if has_header then Option.none
        else Option.some "Table has no header row, generic column names were assigned"
    ⟨has_header, Option.some headers, rows, df.data.length, df.columns.length, note⟩

/-! ## Totals / line-items table classification
(`DocumentTemplateManager._find_totals_table`, `_find_line_items_table`)

The tables scored here are the dict records produced by `table_to_dict`,
i.e. `TableRecord` values. -/

/-- The totals keyword list (`document_templates.py:568-572`). -/
def totalsKeywords : List String :=
  ["toplam", "tutar", "total", "kdv", "matrah",
   "vergi", "ödenecek", "iskonto", "mal hizmet",
   "ara toplam", "genel toplam", "subtotal", "grand total"]

/-- The flattened cell list of a table: headers (when present and
non-empty, both falsy in Python) followed by every row's values in order. -/
def allCells (t : TableRecord) : List String :=
  t.headers.getD [] ++ (t.rows.map (fun r => r.map Prod.snd)).flatten

/-- `' '.join(str(cell).lower() for cell in all_cells if cell)`. -/
def tableText (t : TableRecord) : String :=
  joinSpace (((allCells t).filter (fun c => c ≠ "")).map pyLower)

/-- Number of totals keywords occurring in the flattened lowercased text. -/
def totalsKeywordCount (t : TableRecord) : ℕ :=
  (totalsKeywords.filter (fun kw => containsSub kw (tableText t))).length

/-- The compact-table bonus: `(15 - abs(row_count - 8)) * 2` for
`3 <= row_count <= 15`, else `0`. -/
def totalsRowBonus (rc : ℕ) : ℕ :=
  if 3 ≤ rc ∧ rc ≤ 15 then (15 - ((rc : ℤ) - 8).natAbs) * 2 else 0

/-- The totals score of a (2-column) table
(`document_templates.py:574-579`). -/
def totalsScore (t : TableRecord) : ℕ :=
  totalsKeywordCount t * 10 + totalsRowBonus t.row_count

/-- The candidate loop of `_find_totals_table`: skip non-2-column tables,
keep `(score, table)` when the score is positive. -/
def totalsCandidates : List TableRecord → List (ℕ × TableRecord)
  | [] => []
  | t :: ts =>
    if t.col_count ≠ 2 then totalsCandidates ts
    else if 0 < totalsScore t then (totalsScore t, t) :: totalsCandidates ts
    else totalsCandidates ts

/-- `DocumentTemplateManager._find_totals_table`
(`document_templates.py:522-593`): candidates sorted by score descending
(stable), first one returned; `None` when there is none (in particular on
an empty input list). -/
def findTotalsTable (ts : List TableRecord) : Option TableRecord :=
  match sortDescBy (fun c : ℕ × TableRecord => c.1) (totalsCandidates ts) with
  | [] => Option.none
  | c :: _ => Option.some c.2

/-- Eligibility in the specification's terms: 2 columns and positive score. -/
def eligibleTotals (t : TableRecord) : Bool :=
  decide (t.col_count = 2) && decide (0 < totalsScore t)

/-- The specification-side selector: the first eligible table achieving
the maximal totals score, `none` when no table is eligible. -/
def specFindTotals (ts : List TableRecord) : Option TableRecord :=
  firstMaxBy totalsScore (ts.filter eligibleTotals)

/-- The line-item header keyword list (`document_templates.py:691`). -/
def lineItemKeywords : List String :=
  ["sıra", "mal", "hizmet", "miktar", "fiyat", "tutar", "kdv"]

/-- The line-items score (`document_templates.py:680-704`). -/
def lineItemsScore (t : TableRecord) : ℕ :=
  (if t.has_header then 10 else 0)
  + (let hs := t.headers.getD []
     if hs ≠ [] then
       let header_text := joinSpace ((hs.filter (fun h => h ≠ "")).map pyLower)
       5 * (lineItemKeywords.filter (fun kw => containsSub kw header_text)).length
     else 0)
  + (if 3 ≤ t.row_count ∧ t.row_count ≤ 100 then min t.row_count 20 else 0)
  + (if 5 ≤ t.col_count ∧ t.col_count ≤ 15 then t.col_count * 2 else 0)

/-- `DocumentTemplateManager._find_line_items_table`
(`document_templates.py:665-713`): every table is a candidate; highest
score wins, ties to input order. -/
def findLineItemsTable (ts : List TableRecord) : Option TableRecord :=
  match sortDescBy (fun c : ℕ × TableRecord => c.1) (ts.map (fun t => (lineItemsScore t, t))) with
  | [] => Option.none
  | c :: _ => Option.some c.2

/-! ## Sender/recipient block segmentation
(`PDFReader.extract_sender_recipient_blocks`)

A `Block` is one positioned text fragment (`x0,y0,x1,y1` box and stripped
text), as assembled at `pdf_reader.py:420-432`. -/

structure Block where
  x0 : ℚ
  y0 : ℚ
  x1 : ℚ
  y1 : ℚ
  text : String
deriving DecidableEq

/-- Stable ascending insertion by `y0`. -/
def insertByY (b : Block) : List Block → List Block
  | [] => [b]
  | c :: cs => if b.y0 ≤ c.y0 then b :: c :: cs else c :: insertByY b cs

/-- `sorted(text_blocks, key=lambda b: b['y0'])` (stable). -/
def sortByY : List Block → List Block
  | [] => []
  | b :: bs => insertByY b (sortByY bs)

/-- Index of the first block whose lowercased text contains `'ettn'`. -/
def ettnIdx (l : List Block) : Option ℕ :=
  findIdxWhere (fun b => containsSub "ettn" (pyLower b.text)) l

/-- Step 1 of the segmentation (`pdf_reader.py:437-444`):
`sorted_blocks[:ettn_idx] if ettn_idx else sorted_blocks`.  Note the
source tests the *truthiness* of the index, so an anchor found at index 0
does not truncate. -/
def beforeEttn (l : List Block) : List Block :=
  match ettnIdx l with
  | Option.some i => if i = 0 then l else l.take i
  | Option.none => l

/-- Minimum `x0` of a non-empty block list (`sorted(bs, key=x0)[0].x0`). -/
def minX0 : List Block → ℚ
  | [] => 0
  | b :: bs => bs.foldl (fun m c => min m c.x0) b.x0

/-- The noise filter of step 3 (`pdf_reader.py:459-487`): logo tokens,
table-header phrases, or fewer than 5 characters after strip. -/
def isNoise (b : Block) : Bool :=
  let tl := pyLower b.text
  (["e-fatura", "e-arşiv"].any (fun kw => containsSub kw tl))
  || (["sıra\nno", "mal hizmet", "malzeme/hizmet",
       "miktar", "birim\nfiyat", "kdv\noranı",
       "toplam\ntutar", "iskonto\ntutarı"].any (fun kw => containsSub kw tl))
  || (pyStrip b.text).length < 5

/-- Steps 1-3 of the segmentation: sort by `y0`, truncate before the
anchor, keep the left-side column, drop noise.  The three early
`return`s of the source on an empty intermediate list all produce the
empty partition, which coincides with running the remaining steps on an
empty clean list, so the pipeline is expressed as one function. -/
def cleanBlocksOf (blocks : List Block) (page_width : ℚ) : List Block :=
  let sorted := sortByY blocks
  let before := beforeEttn sorted
  if before.isEmpty then []
  else
    let x_threshold := minX0 before + page_width * (35 / 100)
    let left := before.filter (fun b => b.x0 < x_threshold)
    left.filter (fun b => ¬ isNoise b)

/-- The `SAYIN` anchor match at the head of a character list:
`sa`, then a (greedily consumed) whitespace run, then `y`, one letter of
the class `[iıİ]` (or its case closure `I`), then `n`.  The text has
already been lowercased by the caller, as in the source. -/
def sayinFrom : List Char → Bool
  | 's' :: 'a' :: rest =>
    (match rest.dropWhile isPySpace with
     | 'y' :: c :: 'n' :: _ => c ∈ ['i', 'ı', 'İ', 'I']
     | _ => false)
  | _ => false

/-- `re.search(r'sa\s*y[iıİ]n', text, re.IGNORECASE)` on the lowercased
text: a match at some position. -/
def sayinSearch (s : String) : Bool :=
  (List.range (s.data.length + 1)).any (fun i => sayinFrom (s.data.drop i))

/-- Index of the first block matching the `SAYIN` pattern
(`pdf_reader.py:496-502`). -/
def sayinIdx (l : List Block) : Option ℕ :=
  findIdxWhere (fun b => sayinSearch (pyLower b.text)) l

/-- The inter-block gaps `(i, blocks[i+1].y0 - blocks[i].y1)`. -/
def gapsFrom (i : ℕ) : List Block → List (ℕ × ℚ)
  | a :: b :: rest => (i, b.y0 - a.y1) :: gapsFrom (i + 1) (b :: rest)
  | _ => []

/-- Step 4-6 split of the clean block list (`pdf_reader.py:496-533`). -/
def splitClean (clean : List Block) : List Block × List Block :=
  match sayinIdx clean with
  | Option.some i =>
    if 0 < i then (clean.take i, clean.drop i)
    else ([], clean)
  | Option.none =>
    if 2 ≤ clean.length then
      let gaps := (gapsFrom 0 clean).filter (fun g => 10 < g.2)
      match firstMaxBy (fun g : ℕ × ℚ => g.2) gaps with
      | Option.some g => (clean.take (g.1 + 1), clean.drop (g.1 + 1))
      | Option.none =>
        let mid := clean.length / 2
        (clean.take mid, clean.drop mid)
    else (clean, [])

/-- The post-condition repair (`pdf_reader.py:535-542`): borrow one
boundary block when exactly one side is empty. -/
def repairBlocks (s r : List Block) : List Block × List Block :=
  let p1 : List Block × List Block :=
    if s.isEmpty && !r.isEmpty then (r.take 1, r.drop 1) else (s, r)
  let s1 := p1.1
  let r1 := p1.2
  if r1.isEmpty && !s1.isEmpty then
    (s1.take (s1.length - 1), s1.drop (s1.length - 1))
  else (s1, r1)

/-- `PDFReader.extract_sender_recipient_blocks` from the assembled block
list on (`pdf_reader.py:434-547`): returns `(sender_blocks,
recipient_blocks)`. -/
def segmentBlocks (blocks : List Block) (page_width : ℚ) : List Block × List Block :=
  let clean := cleanBlocksOf blocks page_width
  if clean.isEmpty then ([], [])
  else
    let sr := splitClean clean
    repairBlocks sr.1 sr.2

end EPDF


namespace EPDF

/-! ## Template-driven extraction (`DocumentTemplateManager`)

The regex engine and difflib's `SequenceMatcher` are external
collaborators; `search p text` stands for `re.search(p, text,
re.IGNORECASE)` returning the stripped-later first capture group, and
`sm a b` for `SequenceMatcher(None, a, b).ratio()`.  Every theorem
quantifies over them. -/

/-- One field of a template (`document_templates.py:30-35`). -/
structure ExtractionField where
  name : String
  patterns : List String
  data_type : String
deriving DecidableEq

/-- A document template (`document_templates.py:38-43`). -/
structure DocumentTemplate where
  name : String
  detection_patterns : List String
  fields : List ExtractionField
deriving DecidableEq

/-- `str.replace(needle, '')` for a multi-character needle: remove all
occurrences left to right, non-overlapping.  Fuel-indexed structural
recursion (`fuel = length of the list` suffices since each hit consumes
at least one character). -/
def removeSubAllAux (needle : List Char) : ℕ → List Char → List Char
  | 0, l => l
  | _ + 1, [] => []
  | fuel + 1, c :: rest =>
    if ¬ needle.isEmpty ∧ needle.isPrefixOf (c :: rest) then
      removeSubAllAux needle fuel ((c :: rest).drop needle.length)
    else c :: removeSubAllAux needle fuel rest

/-- `str.replace(needle, '')` on strings. -/
def removeSubAll (needle s : String) : String :=
  String.mk (removeSubAllAux needle.data s.data.length s.data)

/-- The currency alternatives of `_parse_value`'s `amount` regex, in
alternation order. -/
def currencyCodes : List String :=
  ["TL", "TRY", "USD", "EUR", "GBP", "CHF", "JPY", "CNY"]

/-- Python regex word character (`\w`), restricted to the ASCII alphabet
of the uppercased values considered here. -/
def pyWordChar (c : Char) : Bool := c.isAlphanum || c = '_'

/-- `re.search(r'\b(TL|TRY|USD|EUR|GBP|CHF|JPY|CNY)\b', s)`: scan
positions left to right; at a position with a word boundary before it,
try the alternatives in order, each requiring a word boundary after. -/
def findCurrencyScan : Option Char → List Char → Option String
  | prev, c :: rest =>
    let boundary :=
      match prev with
      | Option.none => true
      | Option.some p => ¬ pyWordChar p
    let here :=
      if boundary then
        currencyCodes.findSome? (fun code =>
          if code.data.isPrefixOf (c :: rest) then
            let afterOk :=
              match (c :: rest).drop code.length with
              | [] => true
              | d :: _ => ¬ pyWordChar d
            if afterOk then Option.some code else Option.none
          else Option.none)
      else Option.none
    (match here with
     | Option.some code => Option.some code
     | Option.none => findCurrencyScan (Option.some c) rest)
  | _, [] => Option.none

/-- First `\b`-delimited currency code of a string. -/
def findCurrency (s : String) : Option String := findCurrencyScan Option.none s.data

/-- `DocumentTemplateManager._parse_value`
(`document_templates.py:463-520`).  Any exception (in practice the
`float()` `ValueError`) falls back to returning the raw string. -/
def parseValue (value : String) (data_type : String) : PyVal :=
  if data_type = "amount" then
    let up := pyUpper value
    let currency := (findCurrency up).getD "TRY"
    let clean := currencyCodes.foldl (fun acc code => removeSubAll code acc) up
    let clean := pyStrip clean
    let clean := replaceAllChar ',' '.' (removeAllChar '.' clean)
    match parseFloatParts clean with
    | Option.some p => .dict [("amount", .num (ratOfParts p)), ("currency", .str currency)]
    | Option.none => .str value
  else if data_type = "number" then
    let clean := pyStrip (replaceAllChar ',' '.' (removeAllChar '.' value))
    let clean := ["TL", "TRY", "USD", "EUR", "GBP"].foldl
      (fun acc code => removeSubAll code acc) clean
    let clean := pyStrip clean
    match parseFloatParts clean with
    | Option.some p => .num (ratOfParts p)
    | Option.none => .str value
  else .str value

/-- Ordered-dict insertion: an existing key is updated in place, a new
key appended (CPython dict semantics). -/
def dictInsert (k v : String) : List (String × String) → List (String × String)
  | [] => [(k, v)]
  | (k0, v0) :: rest =>
    if k0 = k then (k0, v) :: rest else (k0, v0) :: dictInsert k v rest

/-- `DocumentTemplateManager._extract_key_value_pairs`
(`document_templates.py:388-415`). -/
def extractKeyValuePairs (text : String) : List (String × String) :=
  (splitOnChar '\n' text.data).foldl (fun pairs lineL =>
    let line := pyStripL lineL
    if line.isEmpty then pairs
    else
      match splitFirst ':' line with
      | Option.some (k, v) =>
        let key := pyLower (pyStrip (String.mk k))
        let value := pyStrip (String.mk v)
        if key ≠ "" ∧ value ≠ "" then dictInsert key value pairs else pairs
      | Option.none => pairs) []

/-- `DocumentTemplateManager._fuzzy_match` with the default threshold:
`sm(target.lower().replace('_',' '), candidate.lower()) >= 0.6`
(`0.6` is modelled as `6/10`; `sm` is the external `SequenceMatcher`
ratio). -/
def fuzzyMatch (sm : String → String → ℚ) (target candidate : String) : Bool :=
  (6 : ℚ) / 10 ≤ sm (replaceAllChar '_' ' ' (pyLower target)) (pyLower candidate)

/-- `DocumentTemplateManager._extract_field`
(`document_templates.py:417-441`): patterns in order (the external
`search` yields the stripped-by-the-caller first group), then the first
fuzzy key-value hit, else `None`. -/
def extractField (search : String → String → Option String)
    (sm : String → String → ℚ) (text : String) (field : ExtractionField)
    (kv : List (String × String)) : PyVal :=
  match field.patterns.findSome? (fun p => search p text) with
  | Option.some m => parseValue (pyStrip m) field.data_type
  | Option.none =>
    match kv.find? (fun pr => fuzzyMatch sm field.name pr.1) with
    | Option.some pr => parseValue pr.2 field.data_type
    | Option.none => PyVal.none

/-- The per-field keyword table of `_extract_from_table`
(`document_templates.py:618-626`). -/
def totalsFieldKeywords (name : String) : List String :=
  if name = "mal_hizmet_toplam" then
    ["mal hizmet toplam", "mal/hizmet toplam", "ara toplam", "subtotal"]
  else if name = "toplam_iskonto" then
    ["toplam iskonto", "toplam i̇skonto", "toplam indirim", "total discount"]
  else if name = "kdv_matrahi" then
    ["kdv matrah", "kdv matrahı", "vat base"]
  else if name = "vergi_haric_tutar" then
    ["vergi hariç", "vergi haric", "tax exclusive"]
  else if name = "hesaplanan_kdv" then
    ["hesaplanan kdv", "toplam kdv", "calculated vat", "total vat"]
  else if name = "vergiler_dahil_toplam" then
    ["vergiler dahil toplam", "vergi dahil toplam", "tax inclusive"]
  else if name = "odenecek_tutar" then
    ["ödenecek tutar", "odenecek tutar", "genel toplam", "grand total", "payable"]
  else []

/-- `DocumentTemplateManager._extract_from_table`
(`document_templates.py:595-663`): the headers list (when truthy) and
then each dict row contribute a `(key, value)` candidate from their
first two entries; the first candidate whose lowercased stripped key
contains a field keyword is parsed; else `None`. -/
def extractFromTable (t : TableRecord) (field : ExtractionField) : PyVal :=
  let keywords := totalsFieldKeywords field.name
  let headerRow : List (List String) :=
    match t.headers with
    | Option.some hs => if hs.isEmpty then [] else [hs]
    | Option.none => []
  let headerCandidates := headerRow.filterMap (fun r =>
    match r with
    | a :: b :: _ => Option.some (pyStrip (pyLower a), pyStrip b)
    | _ => Option.none)
  let rowCandidates := t.rows.filterMap (fun r =>
    match r.map Prod.snd with
    | a :: b :: _ => Option.some (pyStrip (pyLower a), pyStrip b)
    | _ => Option.none)
  match (headerCandidates ++ rowCandidates).find? (fun kvp =>
      keywords.any (fun kw => containsSub kw kvp.1)) with
  | Option.some kvp => parseValue kvp.2 field.data_type
  | Option.none => PyVal.none

/-- The metadata field names of `extract_data`
(`document_templates.py:335-338`). -/
def metadataFieldNames : List String :=
  ["fatura_no", "tarih", "ettn", "ozellestirme_no", "senaryo",
   "fatura_tipi", "siparis_no", "siparis_tarihi", "son_odeme_tarihi", "olusma_zamani"]

/-- The totals field names of `extract_data`
(`document_templates.py:341-344`). -/
def totalsFieldNames : List String :=
  ["mal_hizmet_toplam", "toplam_iskonto", "kdv_matrahi",
   "vergi_haric_tutar", "hesaplanan_kdv", "vergiler_dahil_toplam", "odenecek_tutar"]

end EPDF

namespace EPDF

/-- The metadata fields of the built-in Turkish e-invoice template
(`document_templates.py:58-110`); regex braces are written `\x7b`/`\x7d`. -/
def trMetadataFields : List ExtractionField :=
  [⟨"fatura_no",
    ["(?i)fatura\\s+no\\.?\\s*[:\\-]?\\s*([A-Z0-9]+)",
     "(?i)fatura\\s+numaras[ıi]\\.?\\s*[:\\-]?\\s*([A-Z0-9]+)",
     "(?i)invoice\\s+no\\.?\\s*[:\\-]?\\s*([A-Z0-9]+)",
     "(?i)invoice\\s+number\\.?\\s*[:\\-]?\\s*([A-Z0-9]+)",
     "(?i)belge\\s+no\\.?\\s*[:\\-]?\\s*([A-Z0-9]+)",
     "(?i)document\\s+no\\.?\\s*[:\\-]?\\s*([A-Z0-9]+)",
     "(?i)fatura\\s*#\\s*([A-Z0-9]+)"], "string"⟩,
   ⟨"tarih",
    ["fatura\\s+tarihi?\\s*[:\\-]?\\s*(\\d\x7b1,2\x7d[\\s\\-\\./]\\d\x7b1,2\x7d[\\s\\-\\./]\\d\x7b2,4\x7d)",
     "tarih\\s*[:\\-]\\s*(\\d\x7b1,2\x7d[\\s\\-\\./]\\d\x7b1,2\x7d[\\s\\-\\./]\\d\x7b2,4\x7d)",
     "invoice\\s+date\\s*[:\\-]?\\s*(\\d\x7b1,2\x7d[\\s\\-\\./]\\d\x7b1,2\x7d[\\s\\-\\./]\\d\x7b2,4\x7d)",
     "date\\s*[:\\-]\\s*(\\d\x7b1,2\x7d[\\s\\-\\./]\\d\x7b1,2\x7d[\\s\\-\\./]\\d\x7b2,4\x7d)",
     "d[üu]zenleme\\s+tarihi\\s*[:\\-]?\\s*(\\d\x7b1,2\x7d[\\s\\-\\./]\\d\x7b1,2\x7d[\\s\\-\\./]\\d\x7b2,4\x7d)",
     "belge\\s+tarihi\\s*[:\\-]?\\s*(\\d\x7b1,2\x7d[\\s\\-\\./]\\d\x7b1,2\x7d[\\s\\-\\./]\\d\x7b2,4\x7d)",
     "(\\d\x7b1,2\x7d[\\s\\-\\./]\\d\x7b1,2\x7d[\\s\\-\\./]\\d\x7b4\x7d)"], "string"⟩,
   ⟨"ettn",
    ["ettn\\s*[:\\-]\\s*([a-f0-9\\-]\x7b36\x7d)",
     "e-fatura\\s+uuid\\s*[:\\-]\\s*([a-f0-9\\-]\x7b36\x7d)"], "string"⟩,
   ⟨"ozellestirme_no",
    ["[öo]zelle[şs]tirme\\s+no\\s*[:\\-]\\s*([A-Z0-9\\.]+)",
     "customization\\s+no\\s*[:\\-]\\s*([A-Z0-9\\.]+)"], "string"⟩,
   ⟨"senaryo",
    ["senaryo\\s*[:\\-]\\s*([A-Z]+)",
     "scenario\\s*[:\\-]\\s*([A-Z]+)"], "string"⟩,
   ⟨"fatura_tipi",
    ["fatura\\s+tipi\\s*[:\\-]\\s*([A-ZÇĞİÖŞÜ]+)",
     "invoice\\s+type\\s*[:\\-]\\s*([A-Z]+)"], "string"⟩,
   ⟨"siparis_no",
    ["sipari[şs]\\s+no\\s*[:\\-]\\s*([A-Z0-9]+)",
     "order\\s+no\\s*[:\\-]\\s*([A-Z0-9]+)",
     "order\\s+number\\s*[:\\-]\\s*([A-Z0-9]+)"], "string"⟩,
   ⟨"siparis_tarihi",
    ["sipari[şs]\\s+tarihi\\s*[:\\-]\\s*(\\d\x7b1,2\x7d[-/.]\\d\x7b1,2\x7d[-/.]\\d\x7b2,4\x7d)",
     "order\\s+date\\s*[:\\-]\\s*(\\d\x7b1,2\x7d[-/.]\\d\x7b1,2\x7d[-/.]\\d\x7b2,4\x7d)"], "string"⟩,
   ⟨"son_odeme_tarihi",
    ["son\\s+[öo]deme\\s+tarihi\\s*[:\\-]?\\s*(\\d\x7b1,2\x7d[-/.]\\d\x7b1,2\x7d[-/.]\\d\x7b2,4\x7d)",
     "due\\s+date\\s*[:\\-]\\s*(\\d\x7b1,2\x7d[-/.]\\d\x7b1,2\x7d[-/.]\\d\x7b2,4\x7d)"], "string"⟩,
   ⟨"olusma_zamani",
    ["olu[şs]ma\\s+zaman[ıi]\\s*[:\\-]\\s*(\\d\x7b2\x7d:\\d\x7b2\x7d:\\d\x7b2\x7d)",
     "creation\\s+time\\s*[:\\-]\\s*(\\d\x7b2\x7d:\\d\x7b2\x7d:\\d\x7b2\x7d)"], "string"⟩]

/-- The totals fields of the built-in template
(`document_templates.py:113-147`), all of `data_type = "amount"`. -/
def trTotalsFields : List ExtractionField :=
  [⟨"mal_hizmet_toplam",
    ["mal\\s+hizmet\\s+toplam\\s+tutar[ıi]?\\s*[:\\-]\\s*([\\d\\.,]+\\s*(?:TL|TRY|USD|EUR|GBP)?)",
     "ara\\s+toplam\\s*[:\\-]\\s*([\\d\\.,]+\\s*(?:TL|TRY|USD|EUR|GBP)?)",
     "subtotal\\s*[:\\-]\\s*([\\d\\.,]+\\s*(?:TL|TRY|USD|EUR|GBP)?)"], "amount"⟩,
   ⟨"toplam_iskonto",
    ["toplam\\s+[iİ]skonto\\s*[:\\-]\\s*([\\d\\.,]+\\s*(?:TL|TRY|USD|EUR|GBP)?)",
     "total\\s+discount\\s*[:\\-]\\s*([\\d\\.,]+\\s*(?:TL|TRY|USD|EUR|GBP)?)"], "amount"⟩,
   ⟨"kdv_matrahi",
    ["kdv\\s+matrah[ıi]?\\s*(?:\\([^)]+\\))?\\s*[:\\-]\\s*([\\d\\.,]+\\s*(?:TL|TRY|USD|EUR|GBP)?)",
     "vat\\s+base\\s*[:\\-]\\s*([\\d\\.,]+\\s*(?:TL|TRY|USD|EUR|GBP)?)"], "amount"⟩,
   ⟨"vergi_haric_tutar",
    ["vergi\\s+hari[çc]\\s+tutar\\s*[:\\-]\\s*([\\d\\.,]+\\s*(?:TL|TRY|USD|EUR|GBP)?)",
     "tax\\s+exclusive\\s+amount\\s*[:\\-]\\s*([\\d\\.,]+\\s*(?:TL|TRY|USD|EUR|GBP)?)"], "amount"⟩,
   ⟨"hesaplanan_kdv",
    ["hesaplanan\\s+kdv\\s*(?:\\([^)]+\\))?\\s*[:\\-]?\\s*([\\d\\.,]+\\s*(?:TL|TRY|USD|EUR|GBP)?)",
     "calculated\\s+vat\\s*[:\\-]\\s*([\\d\\.,]+\\s*(?:TL|TRY|USD|EUR|GBP)?)",
     "toplam\\s+kdv\\s*[:\\-]\\s*([\\d\\.,]+\\s*(?:TL|TRY|USD|EUR|GBP)?)"], "amount"⟩,
   ⟨"vergiler_dahil_toplam",
    ["vergiler\\s+dahil\\s+toplam\\s+tutar\\s*[:\\-]\\s*([\\d\\.,]+\\s*(?:TL|TRY|USD|EUR|GBP)?)",
     "vergi\\s+dahil\\s+toplam\\s*[:\\-]\\s*([\\d\\.,]+\\s*(?:TL|TRY|USD|EUR|GBP)?)",
     "tax\\s+inclusive\\s+total\\s*[:\\-]\\s*([\\d\\.,]+\\s*(?:TL|TRY|USD|EUR|GBP)?)"], "amount"⟩,
   ⟨"odenecek_tutar",
    ["[öo]denecek\\s+tutar\\s*[:\\-]\\s*([\\d\\.,]+\\s*(?:TL|TRY|USD|EUR|GBP)?)",
     "genel\\s+toplam\\s*[:\\-]\\s*([\\d\\.,]+\\s*(?:TL|TRY|USD|EUR|GBP)?)",
     "payable\\s+amount\\s*[:\\-]\\s*([\\d\\.,]+\\s*(?:TL|TRY|USD|EUR|GBP)?)",
     "grand\\s+total\\s*[:\\-]\\s*([\\d\\.,]+\\s*(?:TL|TRY|USD|EUR|GBP)?)"], "amount"⟩]

/-- The Turkish e-invoice template (`document_templates.py:149-159`). -/
def trEfatura : DocumentTemplate :=
  ⟨"Türkiye E-Fatura",
   ["e-ar[şs]iv\\s+fatura",
    "fatura\\s+no\\s*:",
    "ettn\\s*:",
    "mal\\s+hizmet.*tutar",
    "vergi\\s+dairesi"],
   trMetadataFields ++ trTotalsFields⟩

/-- The template registry after startup registration
(`document_templates.py:49-165`): insertion-ordered dict with the single
built-in template. -/
def defaultTemplates : List (String × DocumentTemplate) := [("tr_efatura", trEfatura)]

/-- One party's extraction slots, initialized to `None`
(`document_templates.py:230-245`) and possibly filled by the
generative-model block. -/
structure PartyInfo where
  raw_text : Option String
  name : Option String
  address : Option String
  tax_id : Option String
  tax_id_type : Option String
  tax_office : Option String
deriving DecidableEq

/-- All-`None` party slots. -/
def emptyParty : PartyInfo :=
  ⟨Option.none, Option.none, Option.none, Option.none, Option.none, Option.none⟩

/-- The result dict of `extract_data` (`document_templates.py:226-249`),
without the wall-clock `extraction_date` stamp. -/
structure ExtractOutput where
  document_type : String
  template_id : String
  sender : PartyInfo
  recipient : PartyInfo
  invoice_metadata : List (String × PyVal)
  totals : List (String × PyVal)
  line_items : Option (List (List (String × String)))

/-- `DocumentTemplateManager.extract_data`
(`document_templates.py:195-382`).

* An unknown `template_id` raises `ValueError(f"Unknown template:
  {template_id}")` before anything else: modelled as `Except.error`.
* `llmBlock` stands for the whole guarded `try:` block of lines 253-325
  (the generative-model call plus the VKN/TCKN `re.findall` assignment);
  its `Except.error` case is the `except` of line 326, which logs and
  keeps the initial all-`None` party slots.  The guard is
  `header_layout and LLM_AVAILABLE and invoice_extractor`, folded into a
  non-empty layout string and the `llmAvailable` flag.
* Metadata and totals values are `PyVal.none` wherever extraction found
  nothing; no per-field failure is an exception. -/
def extractData (search : String → String → Option String)
    (sm : String → String → ℚ) (llmAvailable : Bool)
    (llmBlock : String → Except Unit (PartyInfo × PartyInfo))
    (templates : List (String × DocumentTemplate))
    (template_id : String) (text : String)
    (tables : Option (List TableRecord))
    (headerLayout : Option String) : Except String ExtractOutput :=
  match templates.find? (fun p => p.1 = template_id) with
  | Option.none => Except.error ("Unknown template: " ++ template_id)
  | Option.some entry =>
    let template := entry.2
    let parties :=
      match headerLayout with
      | Option.some h =>
        if h ≠ "" ∧ llmAvailable then
          match llmBlock h with
          | Except.ok pr => pr
          | Except.error _ => (emptyParty, emptyParty)
        else (emptyParty, emptyParty)
      | Option.none => (emptyParty, emptyParty)
    let kv := extractKeyValuePairs text
    let metadata := (template.fields.filter (fun f => metadataFieldNames.contains f.name)).map
      (fun f => (f.name, extractField search sm text f kv))
    let totalsTable :=
      match tables with
      | Option.some ts => findTotalsTable ts
      | Option.none => Option.none
    let totals :=
      match totalsTable with
      | Option.some t =>
        (template.fields.filter (fun f => totalsFieldNames.contains f.name)).map
          (fun f => (f.name, extractFromTable t f))
      | Option.none =>
        (template.fields.filter (fun f => totalsFieldNames.contains f.name)).map
          (fun f => (f.name, extractField search sm text f kv))
    let lineItems :=
      match tables with
      | Option.some ts => (findLineItemsTable ts).map (fun t => t.rows)
      | Option.none => Option.none
    Except.ok ⟨template.name, template_id, parties.1, parties.2, metadata, totals, lineItems⟩

/-- A `re.search` instantiation finding nothing, and a similarity ratio
that is constantly `0`: used to evaluate `extractData` at concrete
inputs. -/
def searchNone : String → String → Option String := fun _ _ => Option.none

/-- Constantly-zero `SequenceMatcher` ratio, for concrete evaluation. -/
def ratioZero : String → String → ℚ := fun _ _ => 0

/-- A generative-model block that always raises, for concrete evaluation. -/
def llmRaise : String → Except Unit (PartyInfo × PartyInfo) := fun _ => Except.error ()

end EPDF

namespace EPDF

/-! ## Concrete inputs used by the claim theorems -/

/-- The grid of claim C1: first row `["Name","Amount"]`, data rows
`[["Ali","120.50"],["Veli","75.00"]]`. -/
def c1Grid : List (List (Option String)) :=
  [[Option.some "Name", Option.some "Amount"],
   [Option.some "Ali", Option.some "120.50"],
   [Option.some "Veli", Option.some "75.00"]]

/-- A 2-column, 5-row table none of whose cells contains a totals
keyword. -/
def c4Table : TableRecord :=
  ⟨false, Option.none,
   [[("Column_1", "aaa"), ("Column_2", "bbb")],
    [("Column_1", "ccc"), ("Column_2", "ddd")],
    [("Column_1", "eee"), ("Column_2", "fff")],
    [("Column_1", "ggg"), ("Column_2", "hhh")],
    [("Column_1", "iii"), ("Column_2", "jjj")]],
   5, 2, Option.none⟩

/-- A topmost fragment containing the `ettn` anchor. -/
def c7Anchor : Block := ⟨0, 0, 50, 10, "ETTN: 1c2d3e4f"⟩

/-- A second, anchor-free fragment below it. -/
def c7Body : Block := ⟨0, 20, 50, 30, "ACME LTD COMPANY"⟩

/-- The specification's segmentation example: sender line, greeting
anchor, recipient line. -/
def c8A : Block := ⟨0, 0, 50, 10, "ABC LTD STI"⟩

/-- The greeting-anchor fragment of the segmentation example. -/
def c8B : Block := ⟨0, 20, 50, 30, "SAYIN"⟩

/-- The recipient fragment of the segmentation example. -/
def c8C : Block := ⟨0, 40, 50, 50, "Jane Doe"⟩

/-! ## Theorems -/

/-- **C1** (counterexample).  The claim asserts
`HeaderInferenceEngine.infer` returns `true` on the
`["Name","Amount"] / ["Ali","120.50"] / ["Veli","75.00"]` grid; on the
code it does not: the grid has 2 columns, and both the type-mismatch
rule and the keyword rule require at least 3. -/
theorem detect_header_c1_counterexample : detectHeader c1Grid ≠ true := by decide

/-- **C1** (amended).  `_detect_header` returns `false` on the claim's
grid: the single text-over-number mismatch in column 2 does not exceed
50 % of the columns, and the ≥3-column requirement of both header rules
fails on this 2-column grid. -/
theorem detect_header_c1_amended : detectHeader c1Grid = false := by decide

/-- **C2**.  Locale-aware number coercion: `"1.234,56"` and
`"1,234.56"` both coerce to exactly `1234.56` (the rightmost of `,`/`.`
is the decimal separator), the empty string coerces to `None`, a string
whose cleaned form `float()` rejects coerces to `None`, and on every
string the result is `None` or a number — never an exception. -/
theorem number_coercion_locale (jp : String → Option PyVal) :
    convertType jp (.str "1.234,56") "number" = .num (123456 / 100)
    ∧ convertType jp (.str "1,234.56") "number" = .num (123456 / 100)
    ∧ convertType jp (.str "") "number" = .none
    ∧ (∀ s : String, parseFloatParts (numberClean s) = Option.none →
        convertType jp (.str s) "number" = .none)
    ∧ (∀ s : String, convertType jp (.str s) "number" = .none
        ∨ ∃ q : ℚ, convertType jp (.str s) "number" = .num q) := by
  refine ⟨?_, ?_, rfl, ?_, ?_⟩
  · rw [show convertType jp (.str "1.234,56") "number"
        = .num (ratOfParts ⟨false, 1234, 56, 2, 0⟩) from rfl]
    simp only [ratOfParts, PyVal.num.injEq]
    norm_num
  · rw [show convertType jp (.str "1,234.56") "number"
        = .num (ratOfParts ⟨false, 1234, 56, 2, 0⟩) from rfl]
    simp only [ratOfParts, PyVal.num.injEq]
    norm_num
  · intro s hfail
    show convertNumberStr s = .none
    unfold convertNumberStr
    rw [hfail]
    split
    · rfl
    · split
      · rfl
      · rfl
  · intro s
    show convertNumberStr s = .none ∨ ∃ q, convertNumberStr s = .num q
    unfold convertNumberStr
    split
    · exact Or.inl rfl
    · split
      · exact Or.inl rfl
      · split
        · exact Or.inr ⟨_, rfl⟩
        · exact Or.inl rfl

end EPDF

namespace EPDF

/-- A string number-coercion yields `None` or a parsed float. -/
theorem convertNumberStr_cases (s : String) :
    convertNumberStr s = .none
    ∨ ∃ p : FloatParts, convertNumberStr s = .num (ratOfParts p) := by
  unfold convertNumberStr
  split
  · exact Or.inl rfl
  · split
    · exact Or.inl rfl
    · split
      · exact Or.inr ⟨_, rfl⟩
      · exact Or.inl rfl

/-- `_convert_type` on an already-typed float: falsy `0.0` becomes
`None`, every other float is returned unchanged (via the swallowed
`AttributeError`). -/
theorem convertNumber_num (q : ℚ) :
    convertNumber (.num q) = if q = 0 then .none else .num q := by
  by_cases h : q = 0 <;> simp [convertNumber, pyTruthy, h]

/-- Re-coercing an already-coerced boolean is the identity. -/
theorem convertBoolean_bool (b : Bool) : convertBoolean (.bool b) = .bool b := by
  cases b <;> rfl

/-- **C3** (counterexample).  The claim quantifies over every DataFrame,
but on an empty one (here: one column, zero rows) the record's `headers`
is `None`, not a list whose length equals `col_count`. -/
theorem table_to_dict_c3_counterexample :
    ¬ ∃ hs : List String,
      (tableToDict ⟨["A"], [], Option.none⟩).headers = Option.some hs := by
  intro ⟨hs, h⟩
  rw [show (tableToDict ⟨["A"], [], Option.none⟩).headers = Option.none from rfl] at h
  exact Option.noConfusion h

/-- **C3** (amended).  For every rectangular DataFrame with at least one
row and one column, `table_to_dict` yields `headers` as a list whose
length is `col_count`, and every row dict has exactly `col_count`
entries. -/
theorem table_to_dict_shape (df : DataFrame)
    (hd : df.data ≠ []) (hc : df.columns ≠ [])
    (hrect : ∀ r ∈ df.data, r.length = df.columns.length) :
    ∃ hs, (tableToDict df).headers = Option.some hs
      ∧ hs.length = (tableToDict df).col_count
      ∧ ∀ row ∈ (tableToDict df).rows, row.length = (tableToDict df).col_count := by
  have hne : ¬ (df.data.isEmpty ∨ df.columns.isEmpty) := by
    simp [List.isEmpty_iff, hd, hc]
  simp only [tableToDict]
  rw [if_neg hne]
  by_cases hb : (hasDupList df.columns || df.columns.any badHeaderName) = true
  · rw [if_pos hb]
    refine ⟨_, rfl, ?_, ?_⟩
    · simp [genericHeaders]
    · intro row hrow
      simp only [List.mem_map] at hrow
      obtain ⟨r, hr, rfl⟩ := hrow
      simp [List.length_zip, genericHeaders, hrect r hr]
  · rw [if_neg hb]
    refine ⟨_, rfl, rfl, ?_⟩
    intro row hrow
    simp only [List.mem_map] at hrow
    obtain ⟨r, hr, rfl⟩ := hrow
    simp [List.length_zip, hrect r hr]

/-- **C3** (witness): the amended shape fact evaluated on a concrete 2×2
frame. -/
theorem table_to_dict_shape_witness :
    ((⟨["A", "B"], [["x", "y"]], Option.some true⟩ : DataFrame).data ≠ []
      ∧ (⟨["A", "B"], [["x", "y"]], Option.some true⟩ : DataFrame).columns ≠ []
      ∧ ∀ r ∈ (⟨["A", "B"], [["x", "y"]], Option.some true⟩ : DataFrame).data,
          r.length = (⟨["A", "B"], [["x", "y"]], Option.some true⟩ : DataFrame).columns.length)
    ∧ ∃ hs, (tableToDict ⟨["A", "B"], [["x", "y"]], Option.some true⟩).headers = Option.some hs
      ∧ hs.length = (tableToDict ⟨["A", "B"], [["x", "y"]], Option.some true⟩).col_count
      ∧ ∀ row ∈ (tableToDict ⟨["A", "B"], [["x", "y"]], Option.some true⟩).rows,
          row.length = (tableToDict ⟨["A", "B"], [["x", "y"]], Option.some true⟩).col_count :=
  ⟨⟨by decide, by decide, by decide⟩,
   table_to_dict_shape _ (by decide) (by decide) (by decide)⟩

/-- **C5**.  Whenever a non-empty DataFrame's headers contain a
duplicate or a blank/`none`/`nan`-like name, `table_to_dict` replaces
them with `Column_1..Column_N`, forces `has_header` to `false` whatever
the original decision was, and attaches the explanatory note. -/
theorem table_to_dict_header_repair (df : DataFrame)
    (hd : df.data ≠ []) (hc : df.columns ≠ [])
    (hbad : (hasDupList df.columns || df.columns.any badHeaderName) = true) :
    (tableToDict df).headers = Option.some (genericHeaders df.columns.length)
    ∧ (tableToDict df).has_header = false
    ∧ (tableToDict df).note
        = Option.some "Table had duplicate or invalid column names, generic names were assigned" := by
  have hne : ¬ (df.data.isEmpty ∨ df.columns.isEmpty) := by
    simp [List.isEmpty_iff, hd, hc]
  simp only [tableToDict]
  rw [if_neg hne, if_pos hbad]
  exact ⟨rfl, rfl, rfl⟩

/-- **C5** (witness): the repair evaluated on a frame with duplicated
headers and `has_header = True`. -/
theorem table_to_dict_header_repair_witness :
    ((⟨["A", "A"], [["x", "y"]], Option.some true⟩ : DataFrame).data ≠ []
      ∧ (⟨["A", "A"], [["x", "y"]], Option.some true⟩ : DataFrame).columns ≠ []
      ∧ (hasDupList (⟨["A", "A"], [["x", "y"]], Option.some true⟩ : DataFrame).columns
          || (⟨["A", "A"], [["x", "y"]], Option.some true⟩ : DataFrame).columns.any badHeaderName) = true)
    ∧ (tableToDict ⟨["A", "A"], [["x", "y"]], Option.some true⟩).headers
        = Option.some (genericHeaders 2)
    ∧ (tableToDict ⟨["A", "A"], [["x", "y"]], Option.some true⟩).has_header = false
    ∧ (tableToDict ⟨["A", "A"], [["x", "y"]], Option.some true⟩).note
        = Option.some "Table had duplicate or invalid column names, generic names were assigned" :=
  ⟨⟨by decide, by decide, by decide⟩,
   table_to_dict_header_repair _ (by decide) (by decide) (by decide)⟩

/-- **C6** (counterexample).  The float `0.0` is an output of the
number coercion (from the string `"0"`), yet re-coercing it yields
`None`, not `0.0`: idempotence fails at zero. -/
theorem coerce_idempotent_c6_counterexample :
    convertType jsonParseNone (.str "0") "number" = .num 0
    ∧ convertType jsonParseNone (.num 0) "number" = .none
    ∧ (PyVal.none ≠ .num 0) := by
  refine ⟨?_, ?_, by simp⟩
  · rw [show convertType jsonParseNone (.str "0") "number"
        = .num (ratOfParts ⟨false, 0, 0, 0, 0⟩) from rfl]
    simp only [ratOfParts, PyVal.num.injEq]
    norm_num
  · show convertNumber (.num 0) = .none
    rw [convertNumber_num]
    simp

/-- **C6** (amended).  Re-coercing a coercion output is the identity for
`boolean` always, and for `number` whenever the first coercion did not
produce the float `0.0` (re-coercing `0.0` yields `None` because Python's
falsy test `not value` catches it). -/
theorem coerce_idempotent_amended (jp : String → Option PyVal) (w : PyVal)
    (hnz : convertType jp w "number" ≠ .num 0) :
    convertType jp (convertType jp w "number") "number" = convertType jp w "number"
    ∧ convertType jp (convertType jp w "boolean") "boolean"
        = convertType jp w "boolean" := by
  constructor
  · cases w with
    | none => rfl
    | str s =>
      have hnz' : convertNumberStr s ≠ .num 0 := hnz
      show convertType jp (convertNumberStr s) "number" = convertNumberStr s
      rcases convertNumberStr_cases s with h | ⟨p, h⟩
      · rw [h]
        rfl
      · rw [h]
        have hq : ratOfParts p ≠ 0 := by
          intro h0
          exact hnz' (by rw [h, h0])
        show convertNumber (.num (ratOfParts p)) = .num (ratOfParts p)
        rw [convertNumber_num, if_neg hq]
    | num q =>
      show convertType jp (convertNumber (.num q)) "number" = convertNumber (.num q)
      rw [convertNumber_num]
      by_cases h : q = 0
      · rw [if_pos h]
        rfl
      · rw [if_neg h]
        show convertNumber (.num q) = .num q
        rw [convertNumber_num, if_neg h]
    | int n =>
      show convertType jp (convertNumber (.int n)) "number" = convertNumber (.int n)
      by_cases h : n = 0
      · subst h
        rfl
      · have h1 : convertNumber (.int n) = .int n := by
          simp [convertNumber, pyTruthy, h]
        rw [h1]
        show convertNumber (.int n) = .int n
        exact h1
    | bool b => cases b <;> rfl
    | list xs => cases xs with
      | nil => rfl
      | cons a t => rfl
    | dict kvs => cases kvs with
      | nil => rfl
      | cons a t => rfl
  · cases w with
    | none => rfl
    | str s => exact convertBoolean_bool _
    | num q => exact convertBoolean_bool _
    | int n => exact convertBoolean_bool _
    | bool b => exact convertBoolean_bool _
    | list xs => exact convertBoolean_bool _
    | dict kvs => exact convertBoolean_bool _

/-- **C6** (witness): the amended idempotence evaluated at the nonzero
coercion output of `"5"`. -/
theorem coerce_idempotent_witness :
    convertType jsonParseNone (.str "5") "number" ≠ .num 0
    ∧ convertType jsonParseNone (convertType jsonParseNone (.str "5") "number") "number"
        = convertType jsonParseNone (.str "5") "number" := by
  have hnz : convertType jsonParseNone (.str "5") "number" ≠ .num 0 := by
    rw [show convertType jsonParseNone (.str "5") "number"
        = .num (ratOfParts ⟨false, 5, 0, 0, 0⟩) from rfl]
    simp only [ne_eq, PyVal.num.injEq, ratOfParts]
    norm_num
  exact ⟨hnz, (coerce_idempotent_amended jsonParseNone (.str "5") hnz).1⟩

/-- **C10**.  An object-typed coercion whose (fence-stripped) value the
JSON parser rejects returns the single-key dict `{"value": raw}` with the
original raw string — never `None` and never the bare string. -/
theorem object_coercion_wraps_raw (jp : String → Option PyVal) (s : String)
    (_hs : s ≠ "") (hfail : jp (cleanMarkdownJson s) = Option.none) :
    convertType jp (.str s) "object" = .dict [("value", .str s)] := by
  show convertObject jp (.str s) = .dict [("value", .str s)]
  simp only [convertObject]
  rw [hfail]

/-- **C10** (witness): the wrap evaluated on `"not json"` with a parser
that rejects everything. -/
theorem object_coercion_wraps_raw_witness :
    (("not json" : String) ≠ ""
      ∧ jsonParseNone (cleanMarkdownJson "not json") = Option.none)
    ∧ convertType jsonParseNone (.str "not json") "object"
        = .dict [("value", .str "not json")] :=
  ⟨⟨by decide, rfl⟩, object_coercion_wraps_raw jsonParseNone "not json" (by decide) rfl⟩

end EPDF

namespace EPDF

/-- Head of a stable descending insertion. -/
theorem insertDescBy_head [LinearOrder β] (f : α → β) (x : α) (s : List α) :
    (insertDescBy f x s).head? =
      match s.head? with
      | Option.none => Option.some x
      | Option.some y => if f y ≤ f x then Option.some x else Option.some y := by
  cases s with
  | nil => rfl
  | cons y ys =>
    simp only [insertDescBy, List.head?_cons]
    split <;> rfl

/-- The head of the stable descending sort is the first maximal element:
Python's `sorted(l, key=f, reverse=True)[0]` is `max(l, key=f)`. -/
theorem sortDescBy_head [LinearOrder β] (f : α → β) (l : List α) :
    (sortDescBy f l).head? = firstMaxBy f l := by
  induction l with
  | nil => rfl
  | cons x xs ih =>
    simp only [sortDescBy, firstMaxBy, insertDescBy_head, ih]

/-- A non-empty list always has a first maximum. -/
theorem firstMaxBy_cons_ne_none [LinearOrder β] (f : α → β) (x : α) (xs : List α) :
    firstMaxBy f (x :: xs) ≠ Option.none := by
  simp only [firstMaxBy]
  cases firstMaxBy f xs with
  | none => simp
  | some y => by_cases hle : f y ≤ f x <;> simp [hle]

/-- `firstMaxBy` is empty exactly on the empty list. -/
theorem firstMaxBy_eq_none_iff [LinearOrder β] (f : α → β) (l : List α) :
    firstMaxBy f l = Option.none ↔ l = [] := by
  cases l with
  | nil => simp [firstMaxBy]
  | cons x xs => simp [firstMaxBy_cons_ne_none f x xs]

/-- The candidate list of `_find_totals_table` is the eligible tables
paired with their scores, in input order. -/
theorem totalsCandidates_eq (ts : List TableRecord) :
    totalsCandidates ts
      = (ts.filter eligibleTotals).map (fun t => (totalsScore t, t)) := by
  induction ts with
  | nil => rfl
  | cons t ts ih =>
    simp only [totalsCandidates, List.filter_cons]
    by_cases h2 : t.col_count = 2
    · by_cases hpos : 0 < totalsScore t
      · have he : eligibleTotals t = true := by simp [eligibleTotals, h2, hpos]
        rw [if_neg (show ¬ t.col_count ≠ 2 from fun hh => hh h2), if_pos hpos, he]
        simp [ih]
      · have he : eligibleTotals t = false := by simp [eligibleTotals, hpos]
        rw [if_neg (show ¬ t.col_count ≠ 2 from fun hh => hh h2), if_neg hpos, he]
        simp [ih]
    · have he : eligibleTotals t = false := by simp [eligibleTotals, h2]
      rw [if_pos h2, he]
      simp [ih]

/-- Taking the first maximum by score of score-table pairs matches taking
it over the tables. -/
theorem firstMaxBy_fst_map (g : α → ℕ) (l : List α) :
    firstMaxBy (fun c : ℕ × α => c.1) (l.map (fun t => (g t, t)))
      = (firstMaxBy g l).map (fun t => (g t, t)) := by
  induction l with
  | nil => rfl
  | cons x xs ih =>
    simp only [List.map_cons, firstMaxBy, ih]
    cases h : firstMaxBy g xs with
    | none => rfl
    | some y =>
      by_cases hle : g y ≤ g x <;> simp [hle]

/-- `findTotalsTable` as the head of the sorted candidate list. -/
theorem findTotalsTable_eq_head (ts : List TableRecord) :
    findTotalsTable ts
      = ((sortDescBy (fun c : ℕ × TableRecord => c.1) (totalsCandidates ts)).head?).map
          (fun c => c.2) := by
  unfold findTotalsTable
  cases hs : sortDescBy (fun c : ℕ × TableRecord => c.1) (totalsCandidates ts) with
  | nil => simp
  | cons c rest => simp

/-- **C4** (counterexample).  A 2-column, 5-row table with no totals
keyword anywhere in its cells is still returned by
`_find_totals_table` (its row-count bonus alone makes the score
positive), contradicting the claim's "null whenever no totals keyword
matches". -/
theorem find_totals_c4_counterexample :
    c4Table.col_count = 2
    ∧ totalsKeywordCount c4Table = 0
    ∧ findTotalsTable [c4Table] = Option.some c4Table := by
  exact ⟨rfl, by decide, by decide⟩

/-- **C4** (amended).  `_find_totals_table` returns exactly the first
2-column table of *positive score* (10 per keyword match plus the
triangular row-count bonus) achieving the maximal score — ties broken by
input order via the stable sort — and returns `None` iff no 2-column
table has positive score.  (A keyword-free 2-column table with
`3 ≤ row_count ≤ 15` is eligible through the bonus alone, which is the
sole deviation from the claim.) -/
theorem find_totals_amended (ts : List TableRecord) :
    findTotalsTable ts = specFindTotals ts
    ∧ (findTotalsTable ts = Option.none
        ↔ ∀ t ∈ ts, ¬ (t.col_count = 2 ∧ 0 < totalsScore t)) := by
  have h1 : findTotalsTable ts = specFindTotals ts := by
    rw [findTotalsTable_eq_head, totalsCandidates_eq, sortDescBy_head, firstMaxBy_fst_map]
    cases h : firstMaxBy totalsScore (ts.filter eligibleTotals) with
    | none => simp [specFindTotals, h]
    | some t => simp [specFindTotals, h]
  refine ⟨h1, ?_⟩
  rw [h1]
  unfold specFindTotals
  rw [firstMaxBy_eq_none_iff]
  constructor
  · intro h t ht hcond
    have hmem : t ∈ ts.filter eligibleTotals :=
      List.mem_filter.mpr ⟨ht, by simp [eligibleTotals, hcond.1, hcond.2]⟩
    rw [h] at hmem
    exact absurd hmem (List.not_mem_nil t)
  · intro hall
    rw [List.filter_eq_nil_iff]
    intro t ht
    simpa [eligibleTotals] using hall t ht

end EPDF

namespace EPDF

/-- **C7** (the code evaluated at the failing input).  With the `ettn`
anchor in the *first* (topmost) fragment, the truncation step keeps the
whole sequence — `sorted_blocks[:ettn_idx] if ettn_idx else
sorted_blocks` treats index 0 as falsy — while an anchor at a positive
index does truncate.  The claim (truncate at the anchor, including at
index 0) describes the intended behaviour; the code deviates exactly at
index 0. -/
theorem ettn_truncation_index_zero_bug :
    ettnIdx [c7Anchor, c7Body] = Option.some 0
    ∧ beforeEttn [c7Anchor, c7Body] = [c7Anchor, c7Body]
    ∧ beforeEttn [c7Body, c7Anchor] = [c7Body] := by decide

/-- Every branch of the split step partitions the clean list. -/
theorem splitClean_append (l : List Block) :
    (splitClean l).1 ++ (splitClean l).2 = l := by
  unfold splitClean
  split
  · split
    · exact List.take_append_drop _ l
    · rfl
  · split
    · dsimp only
      split
      · exact List.take_append_drop _ l
      · exact List.take_append_drop _ l
    · simp

/-- The borrow repair leaves both sides non-empty whenever at least two
blocks are being partitioned. -/
theorem repairBlocks_nonempty (s r : List Block) (h : 2 ≤ s.length + r.length) :
    (repairBlocks s r).1 ≠ [] ∧ (repairBlocks s r).2 ≠ [] := by
  unfold repairBlocks
  cases s with
  | nil =>
    cases r with
    | nil => simp at h
    | cons a rs =>
      cases rs with
      | nil => simp at h
      | cons b rt => simp
  | cons x st =>
    cases r with
    | cons b rt => simp
    | nil =>
      have hn : 2 ≤ (x :: st).length := by simpa using h
      simp only [List.isEmpty_cons, Bool.not_false, Bool.and_true, List.isEmpty_nil,
        Bool.and_false, Bool.false_eq_true, if_false, Bool.true_and, if_true]
      constructor
      · have hlen : 0 < ((x :: st).take ((x :: st).length - 1)).length := by
          rw [List.length_take]
          omega
        exact List.ne_nil_of_length_pos hlen
      · have hlen : 0 < ((x :: st).drop ((x :: st).length - 1)).length := by
          rw [List.length_drop]
          omega
        exact List.ne_nil_of_length_pos hlen

/-- **C8**.  Whenever at least 2 fragments survive the filtering steps,
the returned partition has both `sender_blocks` and `recipient_blocks`
non-empty: every split branch partitions the clean list, and the borrow
repair moves exactly one boundary fragment when one side is empty. -/
theorem segment_partition_nonempty (blocks : List Block) (pw : ℚ)
    (h2 : 2 ≤ (cleanBlocksOf blocks pw).length) :
    (segmentBlocks blocks pw).1 ≠ [] ∧ (segmentBlocks blocks pw).2 ≠ [] := by
  have hne : (cleanBlocksOf blocks pw).isEmpty = false := by
    cases hcl : cleanBlocksOf blocks pw with
    | nil => rw [hcl] at h2; simp at h2
    | cons a l => simp
  simp only [segmentBlocks, hne, Bool.false_eq_true, if_false]
  apply repairBlocks_nonempty
  rw [← List.length_append, splitClean_append]
  exact h2

/-- **C8** (witness): the specification's three-fragment example — a
sender line, the greeting anchor, a recipient line — has 2 surviving
fragments or more, and both sides of the returned partition are
non-empty. -/
theorem segment_partition_nonempty_witness :
    2 ≤ (cleanBlocksOf [c8A, c8B, c8C] 100).length
    ∧ (segmentBlocks [c8A, c8B, c8C] 100).1 ≠ []
    ∧ (segmentBlocks [c8A, c8B, c8C] 100).2 ≠ [] := by
  have h2 : 2 ≤ (cleanBlocksOf [c8A, c8B, c8C] 100).length := by
    with_unfolding_all decide
  exact ⟨h2, (segment_partition_nonempty [c8A, c8B, c8C] 100 h2).1,
    (segment_partition_nonempty [c8A, c8B, c8C] 100 h2).2⟩

end EPDF

namespace EPDF

/-- **C9**.  `extract_data` raises the `Unknown template` error exactly
when the id is not registered — for *every* behaviour of the external
regex engine, similarity ratio and generative-model block, so before and
independently of any field extraction — and on a registered id it always
returns a result (field-level failures surface as `PyVal.none` values in
the result, never as an exception). -/
theorem extract_data_dispatch (search : String → String → Option String)
    (sm : String → String → ℚ) (avail : Bool)
    (llmB : String → Except Unit (PartyInfo × PartyInfo))
    (tid text : String) (tables : Option (List TableRecord)) (hl : Option String) :
    (defaultTemplates.find? (fun p => p.1 = tid) = Option.none →
      extractData search sm avail llmB defaultTemplates tid text tables hl
        = Except.error ("Unknown template: " ++ tid))
    ∧ (∀ entry, defaultTemplates.find? (fun p => p.1 = tid) = Option.some entry →
        ∃ out, extractData search sm avail llmB defaultTemplates tid text tables hl
          = Except.ok out) := by
  constructor
  · intro h
    unfold extractData
    rw [h]
  · intro entry h
    unfold extractData
    rw [h]
    exact ⟨_, rfl⟩

/-- **C9** (witness): the unregistered id `"invoice_v2"` errors, the
registered id `"tr_efatura"` succeeds, with all externals failing. -/
theorem extract_data_dispatch_witness :
    defaultTemplates.find? (fun p => p.1 = "invoice_v2") = Option.none
    ∧ extractData searchNone ratioZero false llmRaise defaultTemplates "invoice_v2" ""
        Option.none Option.none = Except.error ("Unknown template: " ++ "invoice_v2")
    ∧ defaultTemplates.find? (fun p => p.1 = "tr_efatura")
        = Option.some ("tr_efatura", trEfatura)
    ∧ ∃ out, extractData searchNone ratioZero false llmRaise defaultTemplates "tr_efatura" ""
        Option.none Option.none = Except.ok out := by
  refine ⟨rfl, ?_, rfl, ?_⟩
  · exact (extract_data_dispatch searchNone ratioZero false llmRaise "invoice_v2" ""
      Option.none Option.none).1 rfl
  · exact (extract_data_dispatch searchNone ratioZero false llmRaise "tr_efatura" ""
      Option.none Option.none).2 ("tr_efatura", trEfatura) rfl

end EPDF

namespace EPDF

/-- **C2** (witness): the parse-failure clause evaluated at the
unparseable cleaned string `"1.2.3"`. -/
theorem number_coercion_locale_witness :
    parseFloatParts (numberClean "1.2.3") = Option.none
    ∧ convertType jsonParseNone (.str "1.2.3") "number" = .none :=
  ⟨rfl, (number_coercion_locale jsonParseNone).2.2.2.1 "1.2.3" rfl⟩

/-- **C4** (amended, witness): the refinement evaluated on the
keyword-free 2-column table, where the selector picks it. -/
theorem find_totals_amended_witness :
    findTotalsTable [c4Table] = specFindTotals [c4Table]
    ∧ specFindTotals [c4Table] = Option.some c4Table :=
  ⟨(find_totals_amended [c4Table]).1, by decide⟩

end EPDF
